import Mathlib

/-!
Shallow embedding of the NWSL API's key-auth core and query builders.

The `api_keys` table is modelled as a list of rows; SQL statements from
`app/core/api_keys.py` become pure functions over that list, passing the
current time and the random source explicitly.  FastAPI handlers from
`app/core/auth.py`, `app/api/developers.py`, `app/api/health.py` and
`src/main.py` become functions returning `Except (Nat × String) _`,
an `HTTPException` being the `(status_code, detail)` error value.
-/

namespace NwslApi

/-! ## Configuration (`app/core/config.py`) -/

namespace Settings

def API_KEY_NAME : String := "X-API-Key"

def DEMO_API_KEY : String := "nwsl-demo-key-2024"

def DEFAULT_PAGE_SIZE : Nat := 100

def MAX_PAGE_SIZE : Nat := 1000

end Settings

/-! ## Data model: one row of the `api_keys` table.

Timestamps are abstracted as `Nat`.  `last_used` is nullable.
The columns are those used by `app/core/api_keys.py`. -/

structure ApiKeyRow where
  id : Nat
  key : String
  name : String
  email : String
  created_at : Nat
  last_used : Option Nat
  usage_count : Nat
  is_active : Bool
  rate_limit : Nat
deriving DecidableEq

/-- The identity columns returned by the `UPDATE ... RETURNING` of
`validate_api_key`: `id, name, email, rate_limit, usage_count`. -/
structure KeyIdentity where
  id : Nat
  name : String
  email : String
  rate_limit : Nat
  usage_count : Nat
deriving DecidableEq

/-! ## Key generation (`app/core/api_keys.py`, `generate_api_key`) -/

/-- `string.ascii_letters + string.digits`: the 62-symbol alphabet the
random part of a key is drawn from. -/
def key_alphabet : List Char :=
  "abcdefghijklmnopqrstuvwxyzABCDEFGHIJKLMNOPQRSTUVWXYZ0123456789".data

theorem key_alphabet_length : key_alphabet.length = 62 := by decide

/-- `generate_api_key`: `"nwsl_live_" + 48 chars of secrets.choice(alphabet)`.
The cryptographic random source is abstracted as the function `rand`
giving the alphabet index chosen at each of the 48 iterations. -/
def generate_api_key (rand : Nat → Fin 62) : String :=
  let random_part : String :=
    String.mk ((List.range 48).map fun i =>
      key_alphabet.get ⟨(rand i).val, by rw [key_alphabet_length]; exact (rand i).isLt⟩)
  "nwsl_live_" ++ random_part

/-! ## Key validation (`app/core/api_keys.py`, `validate_api_key`)

The SQL is a single statement:
`UPDATE api_keys SET last_used = $2, usage_count = usage_count + 1
 WHERE key = $1 AND is_active = TRUE
 RETURNING id, name, email, rate_limit, usage_count`.
Every row satisfying the WHERE clause is updated in the same operation;
`fetchrow` yields the first RETURNING row (post-update values) or `none`. -/

def activeMatch (api_key : String) (r : ApiKeyRow) : Bool :=
  r.key == api_key && r.is_active

/-- The SET clause applied to a row the WHERE clause matched. -/
def touch (now : Nat) (r : ApiKeyRow) : ApiKeyRow :=
  { r with last_used := some now, usage_count := r.usage_count + 1 }

def validate_api_key (store : List ApiKeyRow) (api_key : String) (now : Nat) :
    List ApiKeyRow × Option KeyIdentity :=
  if api_key == "" then (store, none)
  else
    (store.map fun r => if activeMatch api_key r then touch now r else r,
     (store.find? (activeMatch api_key)).map fun r =>
       { id := r.id, name := r.name, email := r.email,
         rate_limit := r.rate_limit, usage_count := r.usage_count + 1 })

/-! ## Verification dependency (`app/core/auth.py`, `verify_api_key`) -/

/-- The identity a successful verification returns: either the synthetic
demo identity dict or the row identity from `validate_api_key`. -/
inductive Identity where
  | demo (name email : String)
  | keyed (info : KeyIdentity)
deriving DecidableEq

/-- Python truthiness of the header value: `APIKeyHeader(auto_error=False)`
yields `None` when the header is absent, and `if not api_key` also treats
an empty string as absent. -/
def isBlank : Option String → Bool
  | none => true
  | some s => s == ""

def verify_api_key (store : List ApiKeyRow) (api_key : Option String) (now : Nat) :
    List ApiKeyRow × Except (Nat × String) Identity :=
  if isBlank api_key then
    (store, .error (403, "API key required. Get one at /register"))
  else
    let t := api_key.getD ""
    if t == Settings.DEMO_API_KEY then
      (store, .ok (.demo "Demo User" "demo@nwsl-api.com"))
    else
      match validate_api_key store t now with
      | (store2, some info) => (store2, .ok (.keyed info))
      | (store2, none) => (store2, .error (403, "Invalid API key"))

/-! ## Key creation (`app/core/api_keys.py`, `create_api_key`)

The INSERT names the columns `(key, name, email, created_at, is_active)`;
the remaining columns come from the table defaults.

Modelled from the spec: the `api_keys` table schema is not under `src/`
(only its callers are), so the table-level facts are taken from the spec:
`usage_count` starts at 0 (§4.1 "Persists a new ApiKey row with
`is_active = true`, `usage_count = 0`"), `last_used` starts NULL, the
`(email, name)` pair is covered by a unique constraint whose name
`unique_email_name` appears in the caller's error check, and `rate_limit`
defaults to the configured ceiling (1000, per `check_rate_limit`).
`newId` stands for the server-generated id, `fault` for an injected
non-constraint persistence failure (its raw text becomes the exception
text), and a duplicate `(email, name)` raises the constraint-violation
message naming `unique_email_name`. -/

def default_rate_limit : Nat := 1000

def uniqueViolationMsg : String :=
  "duplicate key value violates unique constraint \"unique_email_name\""

def create_api_key (store : List ApiKeyRow) (name email : String) (now : Nat)
    (rand : Nat → Fin 62) (newId : Nat) (fault : Option String) :
    Except String (List ApiKeyRow × ApiKeyRow) :=
  let api_key := generate_api_key rand
  match fault with
  | some msg => .error msg
  | none =>
    if store.any fun r => r.email == email && r.name == name then
      .error uniqueViolationMsg
    else
      let row : ApiKeyRow :=
        { id := newId, key := api_key, name := name, email := email,
          created_at := now, last_used := none, usage_count := 0,
          is_active := true, rate_limit := default_rate_limit }
      .ok (store ++ [row], row)

/-! ## Registration endpoint (`app/api/developers.py`, `register_for_api_key`) -/

/-- The `"unique_email_name" in str(e)` substring test. -/
def strContains (msg pat : String) : Bool :=
  decide (List.IsInfix pat.data msg.data)

structure RegistrationResponse where
  success : Bool
  message : String
  api_key : String
deriving DecidableEq

def register_for_api_key (store : List ApiKeyRow) (name email : String) (now : Nat)
    (rand : Nat → Fin 62) (newId : Nat) (fault : Option String) :
    Except (Nat × String) (List ApiKeyRow × RegistrationResponse) :=
  match create_api_key store name email now rand newId fault with
  | .ok (store2, row) =>
    .ok (store2,
      { success := true, message := "API key created successfully", api_key := row.key })
  | .error e =>
    if strContains e "unique_email_name" then
      .error (400,
        "You already have an API key with this name. Use a different name or retrieve your existing key.")
    else
      .error (500, e)

/-! ## Key listing (`app/core/api_keys.py`, `get_user_keys`;
`app/api/developers.py`, `get_my_keys`) -/

/-- The columns of `SELECT id, key, name, created_at, last_used,
usage_count, is_active FROM api_keys`. -/
structure UserKeyRow where
  id : Nat
  key : String
  name : String
  created_at : Nat
  last_used : Option Nat
  usage_count : Nat
  is_active : Bool
deriving DecidableEq

def userKeyView (r : ApiKeyRow) : UserKeyRow :=
  { id := r.id, key := r.key, name := r.name, created_at := r.created_at,
    last_used := r.last_used, usage_count := r.usage_count, is_active := r.is_active }

/-- Insertion step of `ORDER BY created_at DESC`. -/
def insertDescByCreated (x : UserKeyRow) : List UserKeyRow → List UserKeyRow
  | [] => [x]
  | y :: ys => if y.created_at < x.created_at then x :: y :: ys
               else y :: insertDescByCreated x ys

/-- `ORDER BY created_at DESC` as an insertion sort. -/
def sortDescByCreated : List UserKeyRow → List UserKeyRow
  | [] => []
  | x :: xs => insertDescByCreated x (sortDescByCreated xs)

def get_user_keys (store : List ApiKeyRow) (email : String) : List UserKeyRow :=
  sortDescByCreated ((store.filter fun r => r.email == email).map userKeyView)

structure KeyListResponse where
  email : String
  keys : List UserKeyRow
  total : Nat
deriving DecidableEq

def get_my_keys (store : List ApiKeyRow) (email : String) :
    Except (Nat × String) KeyListResponse :=
  let keys := get_user_keys store email
  if keys.isEmpty then
    .error (404, "No API keys found for this email")
  else
    .ok { email := email, keys := keys, total := keys.length }

/-! ## Revocation (`app/core/api_keys.py`, `revoke_api_key`;
`app/api/developers.py`, `delete_api_key`)

SQL: `UPDATE api_keys SET is_active = FALSE WHERE id = $1 AND email = $2
RETURNING id`; the function returns whether `fetchrow` found a row. -/

def revokeMatch (key_id : Nat) (email : String) (r : ApiKeyRow) : Bool :=
  r.id == key_id && r.email == email

def revoke_api_key (store : List ApiKeyRow) (key_id : Nat) (email : String) :
    List ApiKeyRow × Bool :=
  (store.map fun r => if revokeMatch key_id email r then { r with is_active := false } else r,
   (store.find? (revokeMatch key_id email)).isSome)

def delete_api_key (store : List ApiKeyRow) (key_id : Nat) (email : String) :
    List ApiKeyRow × Except (Nat × String) String :=
  let res := revoke_api_key store key_id email
  if res.2 then
    (res.1, .ok "API key has been revoked")
  else
    (res.1, .error (404, "API key not found or you don't have permission to revoke it"))

/-! ## Filtered WHERE-clause builders (`app/api/matches.py`, `get_matches`;
`app/api/teams.py`, `get_teams`) -/

/-- A value bound positionally into the query. -/
inductive SqlValue where
  | int (n : Int)
  | str (s : String)
  | date (d : Nat)
deriving DecidableEq

/-- Positional placeholder text. -/
def ph (n : Nat) : String := "$" ++ toString n

/-- Python truthiness of an optional int parameter (`if season:`). -/
def truthyOptInt : Option Int → Bool
  | some n => !(n == 0)
  | none => false

/-- Python truthiness of an optional string parameter (`if team_id:`). -/
def truthyOptStr : Option String → Bool
  | some s => !(s == "")
  | none => false

/-- Python truthiness of an optional date parameter: `date` objects are
always truthy, so this is just presence. -/
def truthyOptDate : Option Nat → Bool
  | some _ => true
  | none => false

/-- The accumulating triple `(where_clauses, params, param_count)` of
`get_matches`. -/
structure WhereState where
  where_clauses : List String
  params : List SqlValue
  param_count : Nat
deriving DecidableEq

/-- One `param_count += 1; where_clauses.append(...); params.append(...)`
block of `get_matches`. -/
def addClause (st : WhereState) (mk : Nat → String) (v : SqlValue) : WhereState :=
  { where_clauses := st.where_clauses ++ [mk (st.param_count + 1)],
    params := st.params ++ [v],
    param_count := st.param_count + 1 }

def seasonClause (n : Nat) : String := "mr.season_id = " ++ ph n

def teamClause (n : Nat) : String :=
  "(mr.home_teams_id = " ++ ph n ++ " OR mr.away_teams_id = " ++ ph n ++ ")"

def startDateClause (n : Nat) : String := "mr.match_date >= " ++ ph n

def endDateClause (n : Nat) : String := "mr.match_date <= " ++ ph n

/-- The filter-accumulation prefix of `get_matches`. -/
def matchesWhereState (season : Option Int) (team_id : Option String)
    (start_date end_date : Option Nat) : WhereState :=
  let st0 : WhereState := { where_clauses := [], params := [], param_count := 0 }
  let st1 := if truthyOptInt season then
      addClause st0 seasonClause (.int (season.getD 0)) else st0
  let st2 := if truthyOptStr team_id then
      addClause st1 teamClause (.str (team_id.getD "")) else st1
  let st3 := if truthyOptDate start_date then
      addClause st2 startDateClause (.date (start_date.getD 0)) else st2
  if truthyOptDate end_date then
    addClause st3 endDateClause (.date (end_date.getD 0)) else st3

/-- `" AND ".join(where_clauses) if where_clauses else "1=1"`. -/
def matchesWhereClause (season : Option Int) (team_id : Option String)
    (start_date end_date : Option Nat) : String :=
  let st := matchesWhereState season team_id start_date end_date
  if st.where_clauses.isEmpty then "1=1"
  else String.intercalate " AND " st.where_clauses

/-- The WHERE fragment and params of `get_teams`: empty when `search` is
absent, one ILIKE predicate over two columns bound to the single
positional parameter `$1` otherwise. -/
def teamsWhere (search : Option String) : String × List SqlValue :=
  if truthyOptStr search then
    ("WHERE team_name ILIKE " ++ ph 1 ++ " OR team_name_long ILIKE " ++ ph 1,
     [.str ("%" ++ search.getD "" ++ "%")])
  else
    ("", [])

/-! ## Health endpoints (`src/main.py` `health_check`;
`app/api/health.py` `health_check` and `readiness_check`)

The `SELECT 1` probe outcome is the explicit argument `probe`:
`.ok ()` when the query succeeds, `.error e` with the exception text
otherwise. -/

structure HealthBody where
  status : String
  database : String
deriving DecidableEq

/-- `src/main.py` `/health`: always returns a body, never an error. -/
def health_check_main (probe : Except String Unit) : HealthBody :=
  match probe with
  | .ok _ => { status := "healthy", database := "connected" }
  | .error e => { status := "unhealthy", database := "error: " ++ e }

structure HealthBodyTs where
  status : String
  timestamp : Nat
  database : String
deriving DecidableEq

/-- `app/api/health.py` `health_check`: computes `db_status` from the
probe, then reports healthy iff `db_status == "connected"`. -/
def health_check_api (probe : Except String Unit) (now : Nat) : HealthBodyTs :=
  let db_status := match probe with
    | .ok _ => "connected"
    | .error e => "error: " ++ e
  { status := if db_status == "connected" then "healthy" else "unhealthy",
    timestamp := now, database := db_status }

/-- `app/api/health.py` `readiness_check`: 503 on probe failure. -/
def readiness_check (probe : Except String Unit) (now : Nat) :
    Except (Nat × String) Nat :=
  match probe with
  | .ok _ => .ok now
  | .error _ => .error (503, "Service not ready")

/-- A revoked stored row used by concrete witnesses. -/
def revokedRow : ApiKeyRow :=
  { id := 7, key := "nwsl_live_X", name := "alice", email := "a@b.com",
    created_at := 1, last_used := some 2, usage_count := 9,
    is_active := false, rate_limit := 1000 }

/-- An active stored row used by concrete witnesses. -/
def activeRow : ApiKeyRow :=
  { id := 3, key := "nwsl_live_Y", name := "bob", email := "b@c.com",
    created_at := 1, last_used := none, usage_count := 41,
    is_active := true, rate_limit := 1000 }

/-! ## Helper lemmas -/

theorem map_id_of_eq {α} (f : α → α) :
    ∀ l : List α, (∀ x ∈ l, f x = x) → l.map f = l
  | [], _ => rfl
  | x :: xs, h => by
    rw [List.map_cons, h x (List.mem_cons_self x xs),
      map_id_of_eq f xs fun y hy => h y (List.mem_cons_of_mem x hy)]

/-- Every string produced by `generate_api_key` starts with the literal
`"nwsl_live_"`, hence is nonempty. -/
theorem issued_key_ne_empty (s : String) : ("nwsl_live_" ++ s) ≠ "" := by
  intro h
  have hd := congrArg String.data h
  rw [String.data_append] at hd
  have h1 : "nwsl_live_".data = ['n', 'w', 's', 'l', '_', 'l', 'i', 'v', 'e', '_'] := by
    decide
  rw [h1] at hd
  simp at hd

/-- An issued key never equals the static demo token: they differ at the
fifth character. -/
theorem issued_key_ne_demo (s : String) :
    ("nwsl_live_" ++ s) ≠ Settings.DEMO_API_KEY := by
  intro h
  have hd := congrArg String.data h
  rw [String.data_append] at hd
  have h1 : "nwsl_live_".data = ['n', 'w', 's', 'l', '_', 'l', 'i', 'v', 'e', '_'] := by
    decide
  have h2 : Settings.DEMO_API_KEY.data =
      ['n', 'w', 's', 'l', '-', 'd', 'e', 'm', 'o', '-', 'k', 'e', 'y', '-', '2', '0', '2', '4'] := by
    decide
  rw [h1, h2] at hd
  simp at hd

/-- `find?` returns the element at the unique index where the predicate
holds. -/
theorem find_eq_of_unique {α} (p : α → Bool) :
    ∀ (l : List α) (i : Nat) (hi : i < l.length),
      p (l.get ⟨i, hi⟩) = true →
      (∀ j (hj : j < l.length), j ≠ i → p (l.get ⟨j, hj⟩) = false) →
      l.find? p = some (l.get ⟨i, hi⟩)
  | [], i, hi, _, _ => absurd hi (by simp)
  | a :: as, 0, _, hp, _ => by
    simp only [List.get] at hp ⊢
    exact List.find?_cons_of_pos as hp
  | a :: as, i + 1, hi, hp, hu => by
    have ha : p a = false := by
      have h0 := hu 0 (by simp) (by simp)
      simpa using h0
    have has : i < as.length := by
      simpa [Nat.succ_lt_succ_iff] using hi
    have hp2 : p (as.get ⟨i, has⟩) = true := by simpa [List.get] using hp
    have hu2 : ∀ j (hj : j < as.length), j ≠ i → p (as.get ⟨j, hj⟩) = false := by
      intro j hj hji
      have := hu (j + 1) (by simpa [Nat.succ_lt_succ_iff] using hj)
        (by simpa using hji)
      simpa [List.get] using this
    have := find_eq_of_unique p as i has hp2 hu2
    rw [List.find?_cons_of_neg as (by rw [ha]; exact Bool.false_ne_true), this]
    simp [List.get]

/-! ## Claims -/

/-- C1: a stored key with `is_active = false` never validates again:
`validate_api_key` returns no identity and leaves the store unchanged,
`verify_api_key` fails with 403 "Invalid API key", and no validation
attempt (with any token) ever reactivates the revoked key, so the
failure persists for all subsequent attempts while the row still exists. -/
theorem revoked_key_never_validates
    (store : List ApiKeyRow) (s k : String) (now : Nat)
    (hk : k = "nwsl_live_" ++ s)
    (hrev : ∀ r ∈ store, r.key = k → r.is_active = false) :
    (validate_api_key store k now).2 = none ∧
    (validate_api_key store k now).1 = store ∧
    (verify_api_key store (some k) now).2 = .error (403, "Invalid API key") ∧
    ∀ t now2 r, r ∈ (validate_api_key store t now2).1 → r.key = k → r.is_active = false := by
  have hne : (k == "") = false := by
    rw [hk]; exact beq_eq_false_iff_ne.mpr (issued_key_ne_empty s)
  have hfind : store.find? (activeMatch k) = none := by
    rw [List.find?_eq_none]
    intro r hr
    simp only [activeMatch, Bool.and_eq_true, beq_iff_eq, not_and]
    intro hkey hact
    rw [hrev r hr hkey] at hact
    exact Bool.false_ne_true hact
  have hmap : (store.map fun r => if activeMatch k r then touch now r else r) = store := by
    apply map_id_of_eq
    intro r hr
    have : activeMatch k r = false := by
      simp only [activeMatch, Bool.and_eq_false_iff]
      by_cases hkey : r.key = k
      · right; rw [hrev r hr hkey]
      · left; exact beq_eq_false_iff_ne.mpr hkey
    rw [this]
    simp
  have hval : validate_api_key store k now = (store, none) := by
    unfold validate_api_key
    rw [hne]
    simp only [Bool.false_eq_true, if_false, hfind, hmap, Option.map_none']
  refine ⟨by rw [hval], by rw [hval], ?_, ?_⟩
  · unfold verify_api_key
    have hblank : isBlank (some k) = false := by simp [isBlank, hne]
    rw [hblank]
    have hdemo : (k == Settings.DEMO_API_KEY) = false := by
      rw [hk]; exact beq_eq_false_iff_ne.mpr (issued_key_ne_demo s)
    simp only [Bool.false_eq_true, if_false, Option.getD_some, hdemo, hval]
  · intro t now2 r hr hkey
    unfold validate_api_key at hr
    by_cases ht : (t == "") = true
    · rw [ht] at hr
      simp only [if_true] at hr
      exact hrev r hr hkey
    · rw [Bool.not_eq_true] at ht
      rw [ht] at hr
      simp only [Bool.false_eq_true, if_false] at hr
      obtain ⟨r0, hr0, hfr⟩ := List.mem_map.mp hr
      by_cases hm : activeMatch t r0 = true
      · rw [if_pos hm] at hfr
        rw [← hfr] at hkey ⊢
        simp only [touch] at hkey ⊢
        exact hrev r0 hr0 hkey
      · rw [Bool.not_eq_true] at hm
        rw [hm] at hfr
        simp only [Bool.false_eq_true, if_false] at hfr
        rw [← hfr] at hkey ⊢
        exact hrev r0 hr0 hkey

/-- C1 witness: the revoked-key theorem applied to a one-row store. -/
theorem revoked_key_never_validates_witness :
    (validate_api_key [revokedRow] "nwsl_live_X" 5).2 = none ∧
    (validate_api_key [revokedRow] "nwsl_live_X" 5).1 = [revokedRow] ∧
    (verify_api_key [revokedRow] (some "nwsl_live_X") 5).2 =
      .error (403, "Invalid API key") ∧
    ∀ t now2 r, r ∈ (validate_api_key [revokedRow] t now2).1 →
      r.key = "nwsl_live_X" → r.is_active = false :=
  revoked_key_never_validates [revokedRow] "X" "nwsl_live_X" 5 rfl (by decide)

/-- C2: for a token exactly matching the unique stored key at index `i`
with `is_active = true`, the single `UPDATE ... RETURNING` of
`validate_api_key` sets that row's `last_used` to the current time and
increments its `usage_count` by exactly one, leaves every other row
unchanged, and returns the identity fields `(id, name, email, rate_limit,
usage_count)` with the post-update count; the lookup and update are one
operation of the embedding, mirroring the single SQL statement (no
read-then-write pair) in the source. -/
theorem validate_active_key_atomic_update
    (store : List ApiKeyRow) (k : String) (now i : Nat)
    (hi : i < store.length)
    (hk : k ≠ "")
    (hkey : (store.get ⟨i, hi⟩).key = k)
    (hact : (store.get ⟨i, hi⟩).is_active = true)
    (huniq : ∀ j (hj : j < store.length), j ≠ i → (store.get ⟨j, hj⟩).key ≠ k) :
    (validate_api_key store k now).2 =
      some { id := (store.get ⟨i, hi⟩).id, name := (store.get ⟨i, hi⟩).name,
             email := (store.get ⟨i, hi⟩).email,
             rate_limit := (store.get ⟨i, hi⟩).rate_limit,
             usage_count := (store.get ⟨i, hi⟩).usage_count + 1 } ∧
    (validate_api_key store k now).1.length = store.length ∧
    (validate_api_key store k now).1.get? i =
      some { store.get ⟨i, hi⟩ with
             last_used := some now,
             usage_count := (store.get ⟨i, hi⟩).usage_count + 1 } ∧
    ∀ j, j ≠ i → (validate_api_key store k now).1.get? j = store.get? j := by
  have hne : (k == "") = false := beq_eq_false_iff_ne.mpr hk
  have hpm : activeMatch k (store.get ⟨i, hi⟩) = true := by
    simp only [activeMatch, Bool.and_eq_true, beq_iff_eq]
    exact ⟨hkey, hact⟩
  have hpu : ∀ j (hj : j < store.length), j ≠ i →
      activeMatch k (store.get ⟨j, hj⟩) = false := by
    intro j hj hji
    have hb : ((store.get ⟨j, hj⟩).key == k) = false :=
      beq_eq_false_iff_ne.mpr (huniq j hj hji)
    unfold activeMatch
    rw [hb, Bool.false_and]
  have hfind := find_eq_of_unique (activeMatch k) store i hi hpm hpu
  have hval : validate_api_key store k now =
      (store.map fun r => if activeMatch k r then touch now r else r,
       some { id := (store.get ⟨i, hi⟩).id, name := (store.get ⟨i, hi⟩).name,
              email := (store.get ⟨i, hi⟩).email,
              rate_limit := (store.get ⟨i, hi⟩).rate_limit,
              usage_count := (store.get ⟨i, hi⟩).usage_count + 1 }) := by
    unfold validate_api_key
    rw [hne]
    simp only [Bool.false_eq_true, if_false, hfind, Option.map_some']
  refine ⟨by rw [hval], by rw [hval]; simp, ?_, ?_⟩
  · rw [hval]
    simp only [List.get?_eq_getElem?, List.getElem?_map,
      List.getElem?_eq_getElem hi, Option.map_some']
    have hpm2 : activeMatch k store[i] = true := hpm
    rw [hpm2]
    simp only [if_true]
    rfl
  · intro j hji
    rw [hval]
    simp only [List.get?_eq_getElem?, List.getElem?_map]
    cases hj : store[j]? with
    | none => simp
    | some r =>
      obtain ⟨hjl, hget⟩ := List.getElem?_eq_some_iff.mp hj
      have hr : activeMatch k r = false := by
        rw [← hget]; exact hpu j hjl hji
      simp [hr]

/-- C2 witness: the atomic-update theorem applied to a two-row store at
index 0. -/
theorem validate_active_key_atomic_update_witness :
    (validate_api_key [activeRow, revokedRow] "nwsl_live_Y" 9).2 =
      some { id := 3, name := "bob", email := "b@c.com",
             rate_limit := 1000, usage_count := 42 } ∧
    (validate_api_key [activeRow, revokedRow] "nwsl_live_Y" 9).1.length = 2 ∧
    (validate_api_key [activeRow, revokedRow] "nwsl_live_Y" 9).1.get? 0 =
      some { activeRow with last_used := some 9, usage_count := 42 } ∧
    ∀ j, j ≠ 0 → (validate_api_key [activeRow, revokedRow] "nwsl_live_Y" 9).1.get? j =
      [activeRow, revokedRow].get? j :=
  validate_active_key_atomic_update [activeRow, revokedRow] "nwsl_live_Y" 9 0
    (by decide) (by decide) (by decide) (by decide)
    (by decide)

/-- The concrete ILIKE fragment `get_teams` builds. -/
theorem teams_ilike_fragment :
    "WHERE team_name ILIKE " ++ ("$" ++ toString (1 : Nat)) ++
      " OR team_name_long ILIKE " ++ ("$" ++ toString (1 : Nat)) =
      "WHERE team_name ILIKE $1 OR team_name_long ILIKE $1" := rfl

/-- C3 counterexample: `season = 0` is present (non-null) yet contributes
no predicate: `if season:` uses Python truthiness, so with `?season=0`
and no other filters `get_matches` binds no parameter and the WHERE
clause collapses to the unconditional `1=1`. -/
theorem get_matches_zero_season_counterexample :
    truthyOptInt (some 0) = false ∧
    matchesWhereState (some 0) none none none =
      { where_clauses := [], params := [], param_count := 0 } ∧
    matchesWhereClause (some 0) none none none = "1=1" :=
  ⟨rfl, rfl, rfl⟩

/-- C3 (amended): each filter that is present and Python-truthy (non-null
and non-zero for the integer `season`; non-null and non-empty for
strings; non-null for dates) contributes exactly one predicate ANDed into
the WHERE clause, its value bound at the next positional placeholder in
order; absent or falsy filters contribute nothing; with no truthy filter
the WHERE clause is the unconditional `1=1`; and `get_teams` adds its
single two-column ILIKE predicate bound to `$1` exactly when `search` is
a non-empty string. -/
theorem filters_contribute_one_predicate_each
    (season : Option Int) (team_id : Option String)
    (start_date end_date : Option Nat) (search : Option String) :
    (matchesWhereState season team_id start_date end_date).where_clauses =
      (if truthyOptInt season then [seasonClause 1] else []) ++
      (if truthyOptStr team_id then
        [teamClause ((truthyOptInt season).toNat + 1)] else []) ++
      (if truthyOptDate start_date then
        [startDateClause ((truthyOptInt season).toNat +
          (truthyOptStr team_id).toNat + 1)] else []) ++
      (if truthyOptDate end_date then
        [endDateClause ((truthyOptInt season).toNat +
          (truthyOptStr team_id).toNat + (truthyOptDate start_date).toNat + 1)]
       else []) ∧
    (matchesWhereState season team_id start_date end_date).params =
      (if truthyOptInt season then [SqlValue.int (season.getD 0)] else []) ++
      (if truthyOptStr team_id then [SqlValue.str (team_id.getD "")] else []) ++
      (if truthyOptDate start_date then [SqlValue.date (start_date.getD 0)] else []) ++
      (if truthyOptDate end_date then [SqlValue.date (end_date.getD 0)] else []) ∧
    (matchesWhereState season team_id start_date end_date).where_clauses.length =
      (truthyOptInt season).toNat + (truthyOptStr team_id).toNat +
      (truthyOptDate start_date).toNat + (truthyOptDate end_date).toNat ∧
    (matchesWhereState season team_id start_date end_date).params.length =
      (matchesWhereState season team_id start_date end_date).where_clauses.length ∧
    (truthyOptInt season = false → truthyOptStr team_id = false →
      truthyOptDate start_date = false → truthyOptDate end_date = false →
      matchesWhereClause season team_id start_date end_date = "1=1") ∧
    teamsWhere search =
      (if truthyOptStr search then
        ("WHERE team_name ILIKE $1 OR team_name_long ILIKE $1",
         [SqlValue.str ("%" ++ search.getD "" ++ "%")])
       else ("", [])) := by
  cases hs : truthyOptInt season <;> cases ht : truthyOptStr team_id <;>
    cases hd1 : truthyOptDate start_date <;> cases hd2 : truthyOptDate end_date <;>
    cases hq : truthyOptStr search <;>
    simp [matchesWhereState, matchesWhereClause, addClause, teamsWhere, ph,
      hs, ht, hd1, hd2, hq, teams_ilike_fragment]

/-- C3 witness: the amended filter theorem applied with all four match
filters truthy and a team search present. -/
theorem filters_contribute_one_predicate_each_witness :
    (matchesWhereState (some 2024) (some "t1") (some 10) (some 20)).where_clauses =
      [seasonClause 1] ++ [teamClause 2] ++ [startDateClause 3] ++ [endDateClause 4] ∧
    (matchesWhereState (some 2024) (some "t1") (some 10) (some 20)).params =
      [SqlValue.int 2024] ++ [SqlValue.str "t1"] ++
      [SqlValue.date 10] ++ [SqlValue.date 20] ∧
    (matchesWhereState (some 2024) (some "t1") (some 10) (some 20)).where_clauses.length = 4 ∧
    (matchesWhereState (some 2024) (some "t1") (some 10) (some 20)).params.length =
      (matchesWhereState (some 2024) (some "t1") (some 10) (some 20)).where_clauses.length ∧
    (truthyOptInt (some (2024 : Int)) = false → truthyOptStr (some "t1") = false →
      truthyOptDate (some 10) = false → truthyOptDate (some 20) = false →
      matchesWhereClause (some 2024) (some "t1") (some 10) (some 20) = "1=1") ∧
    teamsWhere (some "sky") =
      ("WHERE team_name ILIKE $1 OR team_name_long ILIKE $1",
       [SqlValue.str ("%" ++ "sky" ++ "%")]) := by
  have h := filters_contribute_one_predicate_each
    (some 2024) (some "t1") (some 10) (some 20) (some "sky")
  simpa using h

/-- Insertion into the `created_at DESC` order preserves the elements. -/
theorem mem_insertDescByCreated (x y : UserKeyRow) (l : List UserKeyRow) :
    y ∈ insertDescByCreated x l ↔ y = x ∨ y ∈ l := by
  induction l with
  | nil => simp [insertDescByCreated]
  | cons z zs ih =>
    unfold insertDescByCreated
    by_cases h : z.created_at < x.created_at
    · simp [h]
    · simp only [if_neg h, List.mem_cons, ih]
      tauto

/-- `ORDER BY created_at DESC` preserves the elements. -/
theorem mem_sortDescByCreated (y : UserKeyRow) :
    ∀ l, y ∈ sortDescByCreated l ↔ y ∈ l
  | [] => Iff.rfl
  | x :: xs => by
    unfold sortDescByCreated
    rw [mem_insertDescByCreated]
    simp [mem_sortDescByCreated y xs]

/-- C4 counterexample: listing the keys of an email returns each stored
key's full secret value verbatim — `get_user_keys` SELECTs the `key`
column and `get_my_keys` returns it unmasked, so the secret is
retrievable again after creation, neither omitted nor masked. -/
theorem listing_returns_full_secret_counterexample :
    (get_user_keys [activeRow] "b@c.com").map (fun r => r.key) = ["nwsl_live_Y"] ∧
    ∃ resp, get_my_keys [activeRow] "b@c.com" = .ok resp ∧
      resp.keys.map (fun r => r.key) = ["nwsl_live_Y"] :=
  ⟨rfl, ⟨_, rfl, rfl⟩⟩

/-- C4 (amended): the full key value is returned in the creation
response, but it stays retrievable afterwards: every row the listing
returns is the projection of an owned stored row with the secret `key`
column intact, and every owned stored row appears in the listing with
its full secret. -/
theorem listing_exposes_stored_secrets (store : List ApiKeyRow) (email : String) :
    (∀ row ∈ get_user_keys store email,
      ∃ r ∈ store, r.email = email ∧ row = userKeyView r ∧ row.key = r.key) ∧
    (∀ r ∈ store, r.email = email → userKeyView r ∈ get_user_keys store email) := by
  constructor
  · intro row hrow
    rw [get_user_keys, mem_sortDescByCreated] at hrow
    obtain ⟨r, hr, hview⟩ := List.mem_map.mp hrow
    obtain ⟨hrs, hre⟩ := List.mem_filter.mp hr
    refine ⟨r, hrs, by simpa using hre, hview.symm, ?_⟩
    rw [← hview]
    rfl
  · intro r hr hre
    rw [get_user_keys, mem_sortDescByCreated]
    exact List.mem_map.mpr ⟨r, List.mem_filter.mpr ⟨hr, by simpa using hre⟩, rfl⟩

/-- C4 witness: the listing-exposure theorem applied to a one-row store:
the owned row appears in the listing, secret included. -/
theorem listing_exposes_stored_secrets_witness :
    userKeyView activeRow ∈ get_user_keys [activeRow] "b@c.com" :=
  (listing_exposes_stored_secrets [activeRow] "b@c.com").2 activeRow
    (List.mem_cons_self _ _) rfl

/-- C5: successful registration issues a token of the fixed format — the
literal prefix segment `nwsl`, the literal mode segment `live`, and then
exactly 48 characters drawn from the 62-symbol alphanumeric alphabet —
and persists a new ApiKey row with `is_active = true` and
`usage_count = 0`. -/
theorem issuance_format_and_initial_row
    (store : List ApiKeyRow) (name email : String) (now newId : Nat)
    (rand : Nat → Fin 62)
    (hdup : ∀ r ∈ store, ¬(r.email = email ∧ r.name = name)) :
    ∃ row, create_api_key store name email now rand newId none =
        .ok (store ++ [row], row) ∧
      row.key = generate_api_key rand ∧
      (∃ tail : String, row.key = "nwsl" ++ "_" ++ "live" ++ "_" ++ tail ∧
        tail.length = 48 ∧ ∀ c ∈ tail.data, c ∈ key_alphabet) ∧
      key_alphabet.length = 62 ∧
      row.is_active = true ∧ row.usage_count = 0 := by
  have hany : (store.any fun r => r.email == email && r.name == name) = false := by
    rw [List.any_eq_false]
    intro r hr
    simp only [Bool.and_eq_true, beq_iff_eq, not_and]
    intro h1 h2
    exact hdup r hr ⟨h1, h2⟩
  refine ⟨{ id := newId, key := generate_api_key rand, name := name, email := email,
            created_at := now, last_used := none, usage_count := 0,
            is_active := true, rate_limit := default_rate_limit },
          ?_, rfl, ?_, key_alphabet_length, rfl, rfl⟩
  · unfold create_api_key
    simp only [hany, Bool.false_eq_true, if_false]
  · refine ⟨String.mk ((List.range 48).map fun i =>
      key_alphabet.get ⟨(rand i).val, by rw [key_alphabet_length]; exact (rand i).isLt⟩),
      rfl, by simp [String.length], ?_⟩
    intro c hc
    simp only [String.mk, List.mem_map] at hc
    obtain ⟨i, _, hi⟩ := hc
    rw [← hi]
    exact List.get_mem key_alphabet _ _

/-- C5 witness: issuance on an empty store with the constant random
source choosing index 0 (the character `a`). -/
theorem issuance_format_and_initial_row_witness :
    ∃ row, create_api_key [] "app" "d@e.com" 0 (fun _ => (0 : Fin 62)) 1 none =
        .ok ([] ++ [row], row) ∧
      row.key = generate_api_key (fun _ => (0 : Fin 62)) ∧
      (∃ tail : String, row.key = "nwsl" ++ "_" ++ "live" ++ "_" ++ tail ∧
        tail.length = 48 ∧ ∀ c ∈ tail.data, c ∈ key_alphabet) ∧
      key_alphabet.length = 62 ∧
      row.is_active = true ∧ row.usage_count = 0 :=
  issuance_format_and_initial_row [] "app" "d@e.com" 0 1 (fun _ => (0 : Fin 62))
    (by simp)

/-- C6: verification fails — always with status 403 — iff the request
carries no token (absent or empty header) or the presented token is
neither the demo token nor an exact match of an active stored key; the
missing-token case carries the "key required" detail and the no-match
case the "invalid key" detail. -/
theorem verify_forbidden_iff (store : List ApiKeyRow) (tok : Option String) (now : Nat) :
    ((∃ e, (verify_api_key store tok now).2 = .error e) ↔
      (isBlank tok = true ∨
        ∀ s, tok = some s →
          s ≠ Settings.DEMO_API_KEY ∧ ∀ r ∈ store, ¬(r.key = s ∧ r.is_active = true))) ∧
    (∀ e, (verify_api_key store tok now).2 = .error e → e.1 = 403) ∧
    (isBlank tok = true →
      (verify_api_key store tok now).2 =
        .error (403, "API key required. Get one at /register")) ∧
    (∀ s, tok = some s → isBlank tok = false → s ≠ Settings.DEMO_API_KEY →
      (∀ r ∈ store, ¬(r.key = s ∧ r.is_active = true)) →
      (verify_api_key store tok now).2 = .error (403, "Invalid API key")) := by
  by_cases hb : isBlank tok = true
  · have hv : (verify_api_key store tok now).2 =
        .error (403, "API key required. Get one at /register") := by
      unfold verify_api_key
      rw [hb]
      simp
    refine ⟨⟨fun _ => Or.inl hb, fun _ => ⟨_, hv⟩⟩, ?_, fun _ => hv, ?_⟩
    · intro e he
      rw [hv] at he
      cases he
      rfl
    · intro s _ hbf
      rw [hb] at hbf
      cases hbf
  · rw [Bool.not_eq_true] at hb
    cases tok with
    | none => simp [isBlank] at hb
    | some s =>
      have hsne : (s == "") = false := by simpa [isBlank] using hb
      by_cases hd : s = Settings.DEMO_API_KEY
      · have hv : (verify_api_key store (some s) now).2 =
            .ok (.demo "Demo User" "demo@nwsl-api.com") := by
          unfold verify_api_key
          rw [hb]
          simp only [Bool.false_eq_true, if_false, Option.getD_some,
            beq_iff_eq.mpr hd, if_true]
        refine ⟨⟨?_, ?_⟩, ?_, ?_, ?_⟩
        · intro ⟨e, he⟩
          rw [hv] at he
          cases he
        · intro h
          rcases h with h | h
          · rw [h] at hb; cases hb
          · exact absurd hd (h s rfl).1
        · intro e he
          rw [hv] at he
          cases he
        · intro h
          rw [h] at hb
          cases hb
        · intro s2 hs2 _ hd2 _
          cases hs2
          exact absurd hd hd2
      · by_cases hm : ∃ r, r ∈ store ∧ activeMatch s r = true
        · obtain ⟨r0, hfind⟩ := Option.isSome_iff_exists.mp (List.find?_isSome.mpr hm)
          have hv : (verify_api_key store (some s) now).2 =
              .ok (.keyed { id := r0.id, name := r0.name, email := r0.email,
                            rate_limit := r0.rate_limit,
                            usage_count := r0.usage_count + 1 }) := by
            unfold verify_api_key validate_api_key
            rw [hb]
            simp only [Bool.false_eq_true, if_false, Option.getD_some,
              beq_eq_false_iff_ne.mpr hd, hsne, hfind, Option.map_some']
          obtain ⟨r1, hr1, hp1⟩ := hm
          have hcontra : ∀ s2, some s = some s2 →
              s2 ≠ Settings.DEMO_API_KEY ∧
              (∀ r ∈ store, ¬(r.key = s2 ∧ r.is_active = true)) → False := by
            intro s2 hs2 h
            cases hs2
            refine h.2 r1 hr1 ?_
            have := hp1
            simp only [activeMatch, Bool.and_eq_true, beq_iff_eq] at this
            exact this
          refine ⟨⟨?_, ?_⟩, ?_, ?_, ?_⟩
          · intro ⟨e, he⟩
            rw [hv] at he
            cases he
          · intro h
            rcases h with h | h
            · rw [h] at hb; cases hb
            · exact absurd ⟨(h s rfl).1, (h s rfl).2⟩ fun hh => hcontra s rfl hh
          · intro e he
            rw [hv] at he
            cases he
          · intro h
            rw [h] at hb
            cases hb
          · intro s2 hs2 _ _ hnm
            cases hs2
            exact absurd ⟨hd, hnm⟩ fun hh => hcontra s rfl hh
        · have hfind : store.find? (activeMatch s) = none := by
            rw [List.find?_eq_none]
            intro x hx hpx
            exact hm ⟨x, hx, hpx⟩
          have hv : (verify_api_key store (some s) now).2 =
              .error (403, "Invalid API key") := by
            unfold verify_api_key validate_api_key
            rw [hb]
            simp only [Bool.false_eq_true, if_false, Option.getD_some,
              beq_eq_false_iff_ne.mpr hd, hsne, hfind, Option.map_none']
          refine ⟨⟨fun _ => ?_, fun _ => ⟨_, hv⟩⟩, ?_, ?_, fun _ _ _ _ _ => hv⟩
          · refine Or.inr fun s2 hs2 => ?_
            cases hs2
            refine ⟨hd, fun r hr hra => ?_⟩
            refine hm ⟨r, hr, ?_⟩
            simp only [activeMatch, Bool.and_eq_true, beq_iff_eq]
            exact hra
          · intro e he
            rw [hv] at he
            cases he
            rfl
          · intro h
            rw [h] at hb
            cases hb

/-- C6 witness: a request with no token on an empty store fails with the
"key required" 403. -/
theorem verify_forbidden_iff_witness :
    (verify_api_key [] none 0).2 =
      .error (403, "API key required. Get one at /register") :=
  (verify_forbidden_iff [] none 0).2.2.1 rfl

/-- C7: presenting the configured demo token succeeds immediately with
the synthetic demo identity and bypasses the store: the store component
is returned untouched (no row's `last_used` or `usage_count` changes)
and the outcome does not depend on the store contents at all — no lookup
is performed. -/
theorem demo_key_bypasses_store (store other : List ApiKeyRow) (now now2 : Nat) :
    verify_api_key store (some Settings.DEMO_API_KEY) now =
      (store, .ok (.demo "Demo User" "demo@nwsl-api.com")) ∧
    (verify_api_key store (some Settings.DEMO_API_KEY) now).2 =
      (verify_api_key other (some Settings.DEMO_API_KEY) now2).2 := by
  have h : ∀ (st : List ApiKeyRow) (n : Nat),
      verify_api_key st (some Settings.DEMO_API_KEY) n =
        (st, .ok (.demo "Demo User" "demo@nwsl-api.com")) := by
    intro st n
    unfold verify_api_key
    simp [isBlank, Settings.DEMO_API_KEY]
  exact ⟨h store now, by rw [h store now, h other now2]⟩

/-- C8: with no injected persistence fault, registration fails with a
400 Conflict iff the (email, name) pair already exists in the store, and
succeeds otherwise — a duplicate never silently receives a second key —
while an injected persistence failure whose text does not name the
unique constraint surfaces as a 500 with the raw error text. -/
theorem registration_conflict_iff_duplicate
    (store : List ApiKeyRow) (name email : String) (now newId : Nat)
    (rand : Nat → Fin 62) :
    ((∃ d, register_for_api_key store name email now rand newId none =
        .error (400, d)) ↔ ∃ r ∈ store, r.email = email ∧ r.name = name) ∧
    ((∃ out, register_for_api_key store name email now rand newId none = .ok out) ↔
      ¬∃ r ∈ store, r.email = email ∧ r.name = name) ∧
    (∀ msg, strContains msg "unique_email_name" = false →
      register_for_api_key store name email now rand newId (some msg) =
        .error (500, msg)) := by
  have hsub : strContains uniqueViolationMsg "unique_email_name" = true := by decide
  by_cases hdup : ∃ r ∈ store, r.email = email ∧ r.name = name
  · have hany : (store.any fun r => r.email == email && r.name == name) = true := by
      rw [List.any_eq_true]
      obtain ⟨r, hr, h1, h2⟩ := hdup
      exact ⟨r, hr, by simp [h1, h2]⟩
    have hreg : register_for_api_key store name email now rand newId none =
        .error (400,
          "You already have an API key with this name. Use a different name or retrieve your existing key.") := by
      unfold register_for_api_key create_api_key
      simp only [hany, if_true, hsub]
    refine ⟨⟨fun _ => hdup, fun _ => ⟨_, by rw [hreg]⟩⟩, ⟨?_, fun h => absurd hdup h⟩, ?_⟩
    · intro ⟨out, hout⟩
      rw [hreg] at hout
      cases hout
    · intro msg hmsg
      unfold register_for_api_key create_api_key
      simp only [hmsg, Bool.false_eq_true, if_false]
  · have hany : (store.any fun r => r.email == email && r.name == name) = false := by
      rw [List.any_eq_false]
      intro r hr hp
      simp only [Bool.and_eq_true, beq_iff_eq] at hp
      exact hdup ⟨r, hr, hp.1, hp.2⟩
    have hreg : ∃ out, register_for_api_key store name email now rand newId none = .ok out := by
      unfold register_for_api_key create_api_key
      simp only [hany, Bool.false_eq_true, if_false]
      exact ⟨_, rfl⟩
    refine ⟨⟨?_, fun h => absurd h hdup⟩, ⟨fun _ => hdup, fun _ => hreg⟩, ?_⟩
    · intro ⟨d, hderr⟩
      obtain ⟨out, hout⟩ := hreg
      rw [hout] at hderr
      cases hderr
    · intro msg hmsg
      unfold register_for_api_key create_api_key
      simp only [hmsg, Bool.false_eq_true, if_false]

/-- C8 witness: re-registering the (email, name) pair of an existing row
yields a 400 Conflict. -/
theorem registration_conflict_iff_duplicate_witness :
    ∃ d, register_for_api_key [activeRow] "bob" "b@c.com" 0
      (fun _ => (0 : Fin 62)) 9 none = .error (400, d) :=
  (registration_conflict_iff_duplicate [activeRow] "bob" "b@c.com" 0 9
    (fun _ => (0 : Fin 62))).1.mpr ⟨activeRow, List.mem_cons_self _ _, rfl, rfl⟩

/-- C9: revocation sets `is_active := false` exactly on the rows whose id
and owner email both match the supplied values, leaves every other row
(and every other column) unchanged, returns whether some row matched,
and the endpoint reports 404 when no row matched — in particular an
email that does not own the key never succeeds. -/
theorem revoke_scoped_to_owner (store : List ApiKeyRow) (key_id : Nat) (email : String) :
    (revoke_api_key store key_id email).1.length = store.length ∧
    (∀ j r, store.get? j = some r →
      (revoke_api_key store key_id email).1.get? j =
        some (if r.id = key_id ∧ r.email = email
              then { r with is_active := false } else r)) ∧
    ((revoke_api_key store key_id email).2 = true ↔
      ∃ r ∈ store, r.id = key_id ∧ r.email = email) ∧
    ((¬∃ r ∈ store, r.id = key_id ∧ r.email = email) →
      (delete_api_key store key_id email).2 =
        .error (404, "API key not found or you don't have permission to revoke it")) ∧
    ((∃ r ∈ store, r.id = key_id ∧ r.email = email) →
      (delete_api_key store key_id email).2 = .ok "API key has been revoked") := by
  have h3 : (revoke_api_key store key_id email).2 = true ↔
      ∃ r ∈ store, r.id = key_id ∧ r.email = email := by
    simp [revoke_api_key, List.find?_isSome, revokeMatch]
  refine ⟨by simp [revoke_api_key], ?_, h3, ?_, ?_⟩
  · intro j r hj
    rw [List.get?_eq_getElem?] at hj
    simp only [revoke_api_key, List.get?_eq_getElem?, List.getElem?_map, hj,
      Option.map_some']
    by_cases hm : r.id = key_id ∧ r.email = email
    · have hbt : revokeMatch key_id email r = true := by
        simp [revokeMatch, hm.1, hm.2]
      rw [hbt]
      simp [hm]
    · have hbf : revokeMatch key_id email r = false := by
        unfold revokeMatch
        by_cases h1 : r.id = key_id
        · have h2 : r.email ≠ email := fun h2 => hm ⟨h1, h2⟩
          rw [beq_eq_false_iff_ne.mpr h2, Bool.and_false]
        · rw [beq_eq_false_iff_ne.mpr h1, Bool.false_and]
      rw [hbf]
      simp [hm]
  · intro hno
    have hf : (revoke_api_key store key_id email).2 = false := by
      cases hv : (revoke_api_key store key_id email).2
      · rfl
      · exact absurd (h3.mp hv) hno
    simp [delete_api_key, hf]
  · intro hyes
    simp [delete_api_key, h3.mpr hyes]

/-- C9 witness: revoking key id 3 with a non-owner email is a 404 no-op. -/
theorem revoke_scoped_to_owner_witness :
    (delete_api_key [activeRow] 3 "wrong@x.com").2 =
      .error (404, "API key not found or you don't have permission to revoke it") :=
  (revoke_scoped_to_owner [activeRow] 3 "wrong@x.com").2.2.2.1 (by decide)

/-- The liveness body text `"error: " ++ e` never spells `"connected"`. -/
theorem error_text_ne_connected (e : String) :
    (("error: " ++ e) == "connected") = false := by
  apply beq_eq_false_iff_ne.mpr
  intro h
  have hd := congrArg String.data h
  rw [String.data_append] at hd
  have h1 : "error: ".data = ['e', 'r', 'r', 'o', 'r', ':', ' '] := by decide
  have h2 : "connected".data = ['c', 'o', 'n', 'n', 'e', 'c', 't', 'e', 'd'] := by decide
  rw [h1, h2] at hd
  simp at hd

/-- C10: the liveness checks never propagate a probe failure: both
`/health` handlers return a normal body for every probe outcome,
reporting "healthy" iff the probe succeeded and "unhealthy" with the
error text otherwise, while only the readiness check maps a failed probe
to a 503 error. -/
theorem health_liveness_total (probe : Except String Unit) (now : Nat) :
    ((health_check_main probe).status = "healthy" ↔ ∃ u, probe = .ok u) ∧
    ((health_check_api probe now).status = "healthy" ↔ ∃ u, probe = .ok u) ∧
    ((health_check_api probe now).status = "healthy" ∨
      (health_check_api probe now).status = "unhealthy") ∧
    (∀ e, probe = .error e →
      (health_check_main probe).database = "error: " ++ e ∧
      (health_check_api probe now).database = "error: " ++ e ∧
      (health_check_main probe).status = "unhealthy" ∧
      (health_check_api probe now).status = "unhealthy") ∧
    ((∃ n, readiness_check probe now = .ok n) ↔ ∃ u, probe = .ok u) ∧
    (∀ e, probe = .error e →
      readiness_check probe now = .error (503, "Service not ready")) := by
  cases probe with
  | ok u =>
    refine ⟨by simp [health_check_main], by simp [health_check_api], ?_, ?_, ?_, ?_⟩
    · left; simp [health_check_api]
    · intro e he; cases he
    · simp [readiness_check]
    · intro e he; cases he
  | error e =>
    have hne := error_text_ne_connected e
    refine ⟨?_, ?_, ?_, ?_, ?_, ?_⟩
    · simp [health_check_main]
    · simp [health_check_api, hne]
    · right; simp [health_check_api, hne]
    · intro e2 he
      cases he
      exact ⟨rfl, by simp [health_check_api, hne], rfl, by simp [health_check_api, hne]⟩
    · simp [readiness_check]
    · intro e2 he
      cases he
      rfl

/-- C10 witness: a probe failure leaves liveness as a normal "unhealthy"
body while readiness turns it into a 503. -/
theorem health_liveness_total_witness :
    (health_check_main (Except.error "down")).status = "unhealthy" ∧
    readiness_check (Except.error "down") 0 = .error (503, "Service not ready") :=
  ⟨((health_liveness_total (Except.error "down") 0).2.2.2.1 "down" rfl).2.2.1,
   (health_liveness_total (Except.error "down") 0).2.2.2.2.2 "down" rfl⟩

end NwslApi

example :
    (NwslApi.verify_api_key [] (some "nwsl-demo-key-2024") 0).2 =
      .ok (.demo "Demo User" "demo@nwsl-api.com") := rfl

example :
    (NwslApi.validate_api_key
      [{ id := 1, key := "k1", name := "n", email := "e", created_at := 0,
         last_used := none, usage_count := 5, is_active := true, rate_limit := 1000 }]
      "k1" 7).2 =
      some { id := 1, name := "n", email := "e", rate_limit := 1000, usage_count := 6 } := by
  decide
